import Mathlib

/-!
Verification development for the whatsapp-simulator service.

The definitions below are shallow embeddings of the TypeScript source:
`WhatsappController.processPhoneNumbers` / `hasCountryCode` (recipient
normalization before bulk dispatch), the `WhatsappService` session
lifecycle (`initialize`, `reinitialize`, `stopSession`, `deleteSession`,
`cleanup`, the driver event handlers registered in `setupClient`), the
polling readiness wait `waitForClientReady`, the bulk dispatch loops
`sendBulkMessages` / `sendBulkMessagesWithImage`, and the temporary file
path `sendTemporaryFile` / `deleteFileAsync`.

Strings are handled as `List Char` (the contents of the JavaScript
strings); maps keyed by a single tenant id are modelled as the record of
that tenant's entries, a `none` field meaning the key is absent.
-/

namespace WhatsappSim

/-! ## Recipient normalization (`WhatsappController.processPhoneNumbers`) -/

/-- Embeds the JavaScript test `p.test(s)` for the prefix of a string:
`listStartsWith pre s` holds when `pre` is an initial segment of `s`,
mirroring `String.prototype.startsWith`. -/
def listStartsWith : List Char → List Char → Bool
  | [], _ => true
  | _ :: _, [] => false
  | p :: ps, c :: cs => p = c && listStartsWith ps cs

/-- The country-code table of `WhatsappController.hasCountryCode`, in source
order. -/
def countryCodes : List String :=
  ["1", "20", "33", "39", "44", "49", "52", "55", "60", "61", "62", "63",
   "65", "66", "81", "82", "84", "86", "90", "91", "92", "93", "94", "95",
   "98", "212", "213", "216", "218", "220", "221", "222", "223", "224",
   "225", "226", "227", "228", "229", "230", "231", "232", "233", "234",
   "235", "236", "237", "238", "239", "240", "241", "242", "243", "244",
   "245", "246", "248", "249", "250", "251", "252", "253", "254", "255",
   "256", "257", "258", "260", "261", "262", "263", "264", "265", "266",
   "267", "268", "269", "290", "291", "297", "298", "299", "350", "351",
   "352", "353", "354", "355", "356", "357", "358", "359", "370", "371",
   "372", "373", "374", "375", "376", "377", "378", "380", "381", "382",
   "383", "385", "386", "387", "389", "420", "421", "423", "500", "501",
   "502", "503", "504", "505", "506", "507", "508", "509", "590", "591",
   "592", "593", "594", "595", "596", "597", "598", "599", "670", "672",
   "673", "674", "675", "676", "677", "678", "679", "680", "681", "682",
   "683", "684", "685", "686", "687", "688", "689", "690", "691", "692",
   "850", "852", "853", "855", "856", "880", "886", "960", "961", "962",
   "963", "964", "965", "966", "967", "968", "970", "971", "972", "973",
   "974", "975", "976", "977", "992", "993", "994", "995", "996", "998"]

/-- `WhatsappController.hasCountryCode`: true when the digit string starts
with any entry of the country-code table
(`countryCodes.some (code => number.startsWith (code))`). -/
def hasCountryCode (number : List Char) : Bool :=
  countryCodes.any (fun code => listStartsWith code.data number)

/-- Splits a character list at commas, mirroring
`String.prototype.split (",")`: `"a,,b"` gives three pieces and the empty
string gives one empty piece. -/
def splitComma : List Char → List (List Char)
  | [] => [[]]
  | c :: rest =>
    let r := splitComma rest
    if c = ',' then [] :: r
    else
      match r with
      | h :: t => (c :: h) :: t
      | [] => [[c]]

/-- `String.prototype.trim`: drop whitespace from both ends. -/
def trimChars (cs : List Char) : List Char :=
  ((cs.dropWhile Char.isWhitespace).reverse.dropWhile Char.isWhitespace).reverse

/-- The character class removed by `num.replace (regex of whitespace, dash
and parentheses, global) ("")` in `processPhoneNumbers`. -/
def isStrippedChar (c : Char) : Bool :=
  c.isWhitespace || c = '-' || c = '(' || c = ')'

/-- The per-entry cleaning step of `processPhoneNumbers`: strip
whitespace/dashes/parentheses, drop one leading plus sign, and prepend the
Lebanon code 961 when `hasCountryCode` fails and the digits start with 3
or 7. -/
def cleanNumber (num : List Char) : List Char :=
  let cleaned := num.filter (fun c => !(isStrippedChar c))
  let cleaned :=
    match cleaned with
    | '+' :: rest => rest
    | l => l
  if !(hasCountryCode cleaned) then
    match cleaned with
    | c :: _ =>
      if c = '3' ∨ c = '7' then '9' :: '6' :: '1' :: cleaned else cleaned
    | [] => cleaned
  else cleaned

/-- The final validation filter of `processPhoneNumbers`: 9 to 15 digits
and a recognized country code. -/
def validNumber (num : List Char) : Bool :=
  (9 ≤ num.length && num.length ≤ 15 && num.all Char.isDigit)
    && hasCountryCode num

/-- Order-preserving de-duplication keeping first occurrences, mirroring
`[...new Set (numbers)]`. -/
def dedupFirst (l : List (List Char)) : List (List Char) :=
  l.foldl (fun acc x => if acc.contains x then acc else acc ++ [x]) []

/-- `WhatsappController.processPhoneNumbers`: split the input on commas,
trim, drop empties, clean each entry, keep only valid international
digit strings, de-duplicate, and append the `@c.us` suffix. -/
def processPhoneNumbers (numbersString : String) : List String :=
  let numbers :=
    ((((splitComma numbersString.data).map trimChars).filter
        (fun n => n.length > 0)).map cleanNumber).filter validNumber
  (dedupFirst numbers).map (fun n => String.mk (n ++ "@c.us".data))

/-! ## Session lifecycle (`WhatsappService`)

The service keeps three maps keyed by the tenant id (`qrCodes`,
`clients`, `clientStates`) plus the per-tenant durable session directory
on disk.  All claims are per tenant, so the model is the record of one
tenant's entries; `none` means the key is absent from the map.  Driver
handles are numbered so that handle creation can be counted. -/

inductive CState
  | INITIALIZING
  | PENDING
  | CONNECTED
  | DISCONNECTED
deriving DecidableEq

inductive HttpErr
  | badRequest
  | notFound
  | requestTimeout
  | serviceUnavailable
deriving DecidableEq

structure TenantState where
  /-- The `qrCodes` entry: `none` = key absent, `some none` = entry holds
  JavaScript `null`, `some (some u)` = a data-URL login artifact. -/
  qr : Option (Option String)
  /-- The `clients` entry, as the id of the driver handle it references. -/
  client : Option Nat
  /-- The `clientStates` entry. -/
  cstate : Option CState
  /-- Whether the durable session directory
  `SESSION_DIR/session-<userId>` exists on disk. -/
  disk : Bool
  /-- Generator for fresh driver-handle ids. -/
  nextHandle : Nat
  /-- How many driver handles have been constructed so far. -/
  handlesCreated : Nat
deriving DecidableEq

/-- The state of a tenant the service has never seen. -/
def TenantState.initial : TenantState :=
  { qr := none, client := none, cstate := none, disk := false,
    nextHandle := 0, handlesCreated := 0 }

/-- `WhatsappService.cleanup`: destroy the client (if any) and delete the
tenant's entries from all three maps.  The durable directory is not
touched. -/
def cleanup (s : TenantState) : TenantState :=
  { s with client := none, qr := none, cstate := none }

/-- The `qr` handler registered in `setupClient`: store the data URL and
move to PENDING. -/
def qrEvent (url : String) (s : TenantState) : TenantState :=
  { s with qr := some (some url), cstate := some CState.PENDING }

/-- The `ready` handler registered in `setupClient`: set the `qrCodes`
entry to `null` (the key stays present) and move to CONNECTED. -/
def readyEvent (s : TenantState) : TenantState :=
  { s with qr := some none, cstate := some CState.CONNECTED }

/-- The `auth_failure` handler registered in `setupClient`: log and run
`cleanup`. -/
def authFailureEvent (s : TenantState) : TenantState :=
  cleanup s

/-- The `disconnected` handler registered in `setupClient`: mark the state
DISCONNECTED; the `qrCodes` and `clients` entries are left as they are. -/
def disconnectedEvent (s : TenantState) : TenantState :=
  { s with cstate := some CState.DISCONNECTED }

/-- `WhatsappService.initialize`.  `validUser` is the outcome of the
`validateUser` lookup in the user store.  When a client exists and the
state is PENDING the stored artifact is returned unchanged; when it is
CONNECTED the call returns `null`; otherwise the state is set to
INITIALIZING and a fresh driver handle is constructed and stored.  Driver
events during the subsequent `setupClient` wait are modelled as separate
trace events, so the creation branch returns the current `qrCodes` entry.
The returned `Option String` collapses JavaScript `null`/`undefined` to
`none`. -/
def initSession (validUser : Bool) (s : TenantState) :
    Except HttpErr (Option String) × TenantState :=
  if !validUser then (Except.error HttpErr.badRequest, s)
  else if s.client.isSome && s.cstate == some CState.PENDING then
    (Except.ok s.qr.join, s)
  else if s.client.isSome && s.cstate == some CState.CONNECTED then
    (Except.ok none, s)
  else
    let s1 := { s with cstate := some CState.INITIALIZING,
                       client := some s.nextHandle,
                       nextHandle := s.nextHandle + 1,
                       handlesCreated := s.handlesCreated + 1 }
    (Except.ok s1.qr.join, s1)

/-- `WhatsappService.stopSession`: 404 when no client entry exists;
otherwise destroy the client (a soft disconnect that keeps the durable
session data and the map entries) and mark the state DISCONNECTED. -/
def stopSession (s : TenantState) : Except HttpErr Unit × TenantState :=
  match s.client with
  | none => (Except.error HttpErr.notFound, s)
  | some _ => (Except.ok (), { s with cstate := some CState.DISCONNECTED })

/-- `WhatsappService.deleteSession`: invoke `stopSession` (not awaited, a
rejection is ignored), then remove the tenant's durable session directory
from disk. -/
def deleteSession (s : TenantState) : TenantState :=
  let s1 := (stopSession s).2
  { s1 with disk := false }

/-- `WhatsappService.restartSession`: `stopSession` then `initialize`; a
`stopSession` failure propagates. -/
def restartSession (validUser : Bool) (s : TenantState) :
    Except HttpErr (Option String) × TenantState :=
  match stopSession s with
  | (Except.error e, s1) => (Except.error e, s1)
  | (Except.ok _, s1) => initSession validUser s1

/-- The tail of `WhatsappService.reinitialize`, after its `qrCodes.has`
branch: return `null` if the state is CONNECTED; otherwise stop the
session when a client entry remains and run a fresh `initialize`. -/
def reinitAfterLogout (validUser : Bool) (s1 : TenantState) :
    Except HttpErr (Option String) × TenantState :=
  if s1.cstate == some CState.CONNECTED then (Except.ok none, s1)
  else initSession validUser (if s1.client.isSome then (stopSession s1).2 else s1)

/-- `WhatsappService.reinitialize`: if the `qrCodes` map has an entry for
the tenant (even a `null` one), log the client out and run `cleanup`;
then continue with `reinitAfterLogout`.  The driver-side effect of
`logout` is outside the modelled state. -/
def reinitSession (validUser : Bool) (s : TenantState) :
    Except HttpErr (Option String) × TenantState :=
  reinitAfterLogout validUser (if s.qr.isSome then cleanup s else s)

/-- One driver event or API command applied to a tenant's session, the
alphabet of reachable-state traces. -/
inductive Ev
  | init (validUser : Bool)
  | qr (url : String)
  | ready
  | authFailure
  | disconnected
  | stop
  | restart (validUser : Bool)
  | reinit (validUser : Bool)
  | deleteCmd

/-- Apply one event to the tenant state, discarding command results (a
thrown command mutates nothing beyond what its body already did). -/
def applyEvent (s : TenantState) : Ev → TenantState
  | Ev.init v => (initSession v s).2
  | Ev.qr url => qrEvent url s
  | Ev.ready => readyEvent s
  | Ev.authFailure => authFailureEvent s
  | Ev.disconnected => disconnectedEvent s
  | Ev.stop => (stopSession s).2
  | Ev.restart v => (restartSession v s).2
  | Ev.reinit v => (reinitSession v s).2
  | Ev.deleteCmd => deleteSession s

/-- The tenant state after a trace of events, starting from the unseen
tenant. -/
def applyTrace (tr : List Ev) : TenantState :=
  tr.foldl applyEvent TenantState.initial

/-! ## Bulk dispatcher (`WhatsappService.sendBulkMessages` and
`WhatsappService.sendBulkMessagesWithImage`)

Both loops have the same body: when `results.length > 0` await the
configured delay, then attempt the send, then push a per-recipient entry
recording success (with the message id) or failure (with the error
message).  The attempted send is a parameter (`sendMessage` resp.
`sendFile` applied to the already-ready client), and the loop also emits
a trace of its delay and send actions so that the schedule can be stated.
-/

/-- One per-recipient entry of the list the bulk loops return. -/
structure SendResult where
  number : String
  success : Bool
  messageId : Option String
  error : Option String
deriving DecidableEq

/-- The entry pushed for one recipient: the `try` branch on a successful
send, the `catch` branch on a failed one. -/
def resultFor (send : String → Except String String) (n : String) : SendResult :=
  match send n with
  | Except.ok mid => { number := n, success := true, messageId := some mid, error := none }
  | Except.error e => { number := n, success := false, messageId := none, error := some e }

/-- An observable action of a bulk loop: one awaited inter-message delay
or one send attempt. -/
inductive BulkAction
  | delay (ms : Nat)
  | attempt (number : String)
deriving DecidableEq

/-- Whether a bulk action is a delay. -/
def BulkAction.isDelay : BulkAction → Bool
  | BulkAction.delay _ => true
  | BulkAction.attempt _ => false

/-- The shared loop body of `sendBulkMessages` and
`sendBulkMessagesWithImage`: iterate over the recipients in order,
awaiting the delay only when `results.length > 0`, and appending one
result entry per recipient whether the send succeeded or threw. -/
def sendBulkLoop (send : String → Except String String) (delayMs : Nat) :
    List String → List SendResult → List BulkAction →
    List SendResult × List BulkAction
  | [], results, trace => (results, trace)
  | n :: rest, results, trace =>
    let trace1 := if results.length > 0 then trace ++ [BulkAction.delay delayMs] else trace
    let trace2 := trace1 ++ [BulkAction.attempt n]
    sendBulkLoop send delayMs rest (results ++ [resultFor send n]) trace2

/-- `WhatsappService.sendBulkMessages`, with the per-recipient
`sendMessage` call abstracted as `send`. -/
def sendBulkMessages (send : String → Except String String)
    (phoneNumbers : List String) (delayMs : Nat) :
    List SendResult × List BulkAction :=
  sendBulkLoop send delayMs phoneNumbers [] []

/-- `WhatsappService.sendBulkMessagesWithImage`: the same loop with
`sendFile client n imagePath caption` as the per-recipient call. -/
def sendBulkMessagesWithImage
    (sendFileOp : String → String → String → Except String String)
    (phoneNumbers : List String) (imagePath caption : String) (delayMs : Nat) :
    List SendResult × List BulkAction :=
  sendBulkLoop (fun n => sendFileOp n imagePath caption) delayMs phoneNumbers [] []

/-- The aggregate success count computed by
`WhatsappController.sendBulkMessage` over the returned list. -/
def successCount (rs : List SendResult) : Nat :=
  (rs.filter (fun r => r.success)).length

/-- The aggregate failure count computed by
`WhatsappController.sendBulkMessage` over the returned list. -/
def failureCount (rs : List SendResult) : Nat :=
  (rs.filter (fun r => !r.success)).length

/-- The schedule the spec describes for the bulk dispatcher: the sends in
input order, strictly sequential, with exactly one configured delay
between consecutive sends and none before the first.  Stated from the
spec's words, to be compared with the trace the loop emits. -/
def specSchedule (delayMs : Nat) : List String → List BulkAction
  | [] => []
  | n :: rest =>
    BulkAction.attempt n ::
      rest.flatMap (fun m => [BulkAction.delay delayMs, BulkAction.attempt m])

/-! ## Readiness wait (`WhatsappService.waitForClientReady`)

The source polls the maps every 1000 ms: at each tick it computes the
elapsed seconds and rejects with a timeout (running `cleanup` unless the
state is PENDING) once `elapsed > TIMEOUT_SECONDS`; otherwise it rejects
not-found when the client entry is gone, rejects service-unavailable
(after `cleanup`) when the state is DISCONNECTED, resolves when the state
is CONNECTED, and re-arms the 1000 ms timer in every remaining case.
`sched t` gives the contents of the two maps the loop reads at the tick
`t` seconds after the start; the fuel counts the ticks left until the
elapsed time exceeds the timeout budget. -/

/-- `WhatsappService.TIMEOUT_SECONDS`. -/
def TIMEOUT_SECONDS : Nat := 300

instance {ε α : Type} [DecidableEq ε] [DecidableEq α] : DecidableEq (Except ε α)
  | Except.ok a, Except.ok b =>
    match decEq a b with
    | isTrue h => isTrue (by rw [h])
    | isFalse h => isFalse (fun hh => by cases hh; exact h rfl)
  | Except.ok _, Except.error _ => isFalse (fun h => by cases h)
  | Except.error _, Except.ok _ => isFalse (fun h => by cases h)
  | Except.error e, Except.error f =>
    match decEq e f with
    | isTrue h => isTrue (by rw [h])
    | isFalse h => isFalse (fun hh => by cases hh; exact h rfl)

/-- What one readiness-wait run did: the settled promise, whether
`cleanup` ran, and the tick at which the loop stopped. -/
structure WaitOutcome where
  result : Except HttpErr Unit
  evicted : Bool
  tick : Nat
deriving DecidableEq

/-- One `check` activation of `waitForClientReady` at tick `t`, with
`fuel` ticks left before the elapsed time exceeds `TIMEOUT_SECONDS`. -/
def waitCheck (sched : Nat → Bool × Option CState) (t : Nat) :
    Nat → WaitOutcome
  | 0 =>
    { result := Except.error HttpErr.requestTimeout,
      evicted := decide ((sched t).2 ≠ some CState.PENDING),
      tick := t }
  | fuel + 1 =>
    if !(sched t).1 then
      { result := Except.error HttpErr.notFound, evicted := false, tick := t }
    else if (sched t).2 == some CState.DISCONNECTED then
      { result := Except.error HttpErr.serviceUnavailable, evicted := true, tick := t }
    else if (sched t).2 == some CState.CONNECTED then
      { result := Except.ok (), evicted := false, tick := t }
    else waitCheck sched (t + 1) fuel

/-- `WhatsappService.waitForClientReady`: the poll loop started at elapsed
time 0 with the 300-second budget, so the timeout branch fires at tick
301, the first tick with `elapsed > TIMEOUT_SECONDS`. -/
def waitForClientReady (sched : Nat → Bool × Option CState) : WaitOutcome :=
  waitCheck sched 0 (TIMEOUT_SECONDS + 1)

/-! ## Temporary attachment (`WhatsappService.sendTemporaryFile`) -/

/-- A filesystem event of the temporary-attachment path. -/
inductive FsEv
  | unlinkCall (path : String)
  | unlinkErrLog (path : String)
  | unlinkOkLog (path : String)
deriving DecidableEq

/-- Whether a filesystem event is the `fs.unlink` invocation itself. -/
def FsEv.isUnlinkCall : FsEv → Bool
  | FsEv.unlinkCall _ => true
  | _ => false

/-- `WhatsappService.deleteFileAsync`: call `fs.unlink` and, in its
callback, log the failure or the success.  Its return type has no error
component: a deletion failure is logged and swallowed. -/
def deleteFileAsync (unlinkOk : Bool) (path : String) : List FsEv :=
  FsEv.unlinkCall path ::
    (if unlinkOk then [FsEv.unlinkOkLog path] else [FsEv.unlinkErrLog path])

/-- `WhatsappService.sendTemporaryFile`, with the `sendFile` outcome
abstracted as `sendF` and the deletion outcome as `unlinkOk`: on success
delete the file and return the result, on failure delete the file and
re-throw. -/
def sendTemporaryFile (sendF : Except String String) (unlinkOk : Bool)
    (path : String) : Except String String × List FsEv :=
  match sendF with
  | Except.ok r => (Except.ok r, deleteFileAsync unlinkOk path)
  | Except.error e => (Except.error e, deleteFileAsync unlinkOk path)

/-! ## Theorems -/

/-- Claim C1: recipient normalization before bulk dispatch.  The inputs
`"+961 3 578 883"` and `"123"` behave as claimed (normalized to
`9613578883@c.us`, resp. silently dropped), but the input `"3578883"` is
NOT given the Lebanon prefix: `hasCountryCode` matches its first three
digits against the Cyprus code `357`, so the 961-branch is skipped and
the 7-digit string then fails the 9-to-15-digit filter and is dropped
from the dispatch list, contradicting the claimed Lebanon-prefixed
canonical form. -/
theorem processPhoneNumbers_spec_inputs :
    processPhoneNumbers "+961 3 578 883" = ["9613578883@c.us"]
  ∧ processPhoneNumbers "123" = []
  ∧ hasCountryCode "3578883".data = true
  ∧ cleanNumber "3578883".data = "3578883".data
  ∧ processPhoneNumbers "3578883" = []
  ∧ processPhoneNumbers "+961 3 578 883, 3578883, 123" = ["9613578883@c.us"] :=
  ⟨by decide, by decide, by decide, by decide, by decide, by decide⟩

/-- A tenant state whose login artifact is non-null implies the lifecycle
state is not CONNECTED. -/
def QrSafe (s : TenantState) : Prop :=
  ∀ u : String, s.qr = some (some u) → s.cstate ≠ some CState.CONNECTED

theorem qrSafe_cleanup (s : TenantState) : QrSafe (cleanup s) := by
  intro u h
  simp [cleanup] at h

theorem qrSafe_initSession (v : Bool) (s : TenantState) (hs : QrSafe s) :
    QrSafe (initSession v s).2 := by
  unfold initSession
  split
  · exact hs
  · split
    · exact hs
    · split
      · exact hs
      · intro u h hc
        simp at hc

theorem qrSafe_stop (s : TenantState) (hs : QrSafe s) :
    QrSafe (stopSession s).2 := by
  unfold stopSession
  cases s.client with
  | none => exact hs
  | some c =>
    intro u h hc
    simp at hc

theorem qrSafe_reinit (v : Bool) (s : TenantState) (hs : QrSafe s) :
    QrSafe (reinitSession v s).2 := by
  unfold reinitSession
  have h1 : QrSafe (if s.qr.isSome then cleanup s else s) := by
    split
    · exact qrSafe_cleanup s
    · exact hs
  generalize (if s.qr.isSome then cleanup s else s) = s1 at h1 ⊢
  unfold reinitAfterLogout
  split
  · exact h1
  · apply qrSafe_initSession
    split
    · exact qrSafe_stop _ h1
    · exact h1

theorem qrSafe_applyEvent (s : TenantState) (e : Ev) (hs : QrSafe s) :
    QrSafe (applyEvent s e) := by
  cases e with
  | init v => exact qrSafe_initSession v s hs
  | qr url =>
    intro u h hc
    simp [applyEvent, qrEvent] at hc
  | ready =>
    intro u h
    simp [applyEvent, readyEvent] at h
  | authFailure => exact qrSafe_cleanup s
  | disconnected =>
    intro u h hc
    simp [applyEvent, disconnectedEvent] at hc
  | stop => exact qrSafe_stop s hs
  | restart v =>
    show QrSafe (restartSession v s).2
    unfold restartSession
    cases hsc : stopSession s with
    | mk r s1 =>
      have hs1 : QrSafe s1 := by
        have h2 : s1 = (stopSession s).2 := by rw [hsc]
        subst h2
        exact qrSafe_stop s hs
      cases r with
      | error e => exact hs1
      | ok a => exact qrSafe_initSession v s1 hs1
  | reinit v => exact qrSafe_reinit v s hs
  | deleteCmd =>
    show QrSafe (deleteSession s)
    unfold deleteSession
    intro u h hc
    have h2 := qrSafe_stop s hs
    simp only at h hc
    exact h2 u h hc

theorem qrSafe_trace (tr : List Ev) : QrSafe (applyTrace tr) := by
  unfold applyTrace
  have base : QrSafe TenantState.initial := by
    intro u h
    simp [TenantState.initial] at h
  generalize TenantState.initial = s0 at base ⊢
  induction tr generalizing s0 with
  | nil => exact base
  | cons e rest ih =>
    simp only [List.foldl_cons]
    exact ih (applyEvent s0 e) (qrSafe_applyEvent s0 e base)

/-- Claim C3, counterexample: the claimed invariant "the stored login
artifact is non-null only while the state is PENDING" fails on the
reachable trace `init`, `qr`, `disconnected` — the `disconnected` handler
marks the state DISCONNECTED but does not clear the artifact. -/
theorem login_artifact_pending_only_cex :
    (applyTrace [Ev.init true, Ev.qr "qr-url", Ev.disconnected]).qr
      = some (some "qr-url")
  ∧ (applyTrace [Ev.init true, Ev.qr "qr-url", Ev.disconnected]).cstate
      = some CState.DISCONNECTED
  ∧ (applyTrace [Ev.init true, Ev.qr "qr-url", Ev.disconnected]).cstate
      ≠ some CState.PENDING :=
  ⟨by decide, by decide, by decide⟩

/-- Claim C3, amended: in every state reachable by driver events and API
commands from an unseen tenant, a non-null stored login artifact implies
the lifecycle state is not CONNECTED; the stricter "only while PENDING"
fails because the `disconnected` event and the `stop` command leave a
pending artifact in place (see the counterexample). -/
theorem login_artifact_never_connected (tr : List Ev) (u : String)
    (h : (applyTrace tr).qr = some (some u)) :
    (applyTrace tr).cstate ≠ some CState.CONNECTED :=
  qrSafe_trace tr u h

/-- Witness for the amended claim C3 at the trace `init`, `qr`. -/
theorem login_artifact_never_connected_witness :
    (applyTrace [Ev.init true, Ev.qr "qr-url"]).cstate ≠ some CState.CONNECTED :=
  login_artifact_never_connected [Ev.init true, Ev.qr "qr-url"] "qr-url" (by decide)

/-- The state of a session that went through `init` and the driver's `qr`
and `ready` events: CONNECTED, with a `null` entry in the `qrCodes`
map. -/
def connectedViaQrScan : TenantState :=
  applyTrace [Ev.init true, Ev.qr "qr-url", Ev.ready]

/-- Claim C2: on a CONNECTED session the `reinitialize` command is NOT
the claimed no-op.  Because the `ready` handler stores `null` in the
`qrCodes` map instead of deleting the key, `qrCodes.has` is true for
every session that reached CONNECTED, so `reinitialize` takes the
logout-and-cleanup branch, evicts the record, and runs a fresh `init`:
the resulting state is INITIALIZING with a brand-new driver handle.  (On
a PENDING session the behavior matches the claim: logout, evict, fresh
init — last two conjuncts.) -/
theorem reinit_on_connected_evicts_and_recreates :
    connectedViaQrScan.cstate = some CState.CONNECTED
  ∧ connectedViaQrScan.qr = some none
  ∧ (reinitSession true connectedViaQrScan).2.cstate = some CState.INITIALIZING
  ∧ (reinitSession true connectedViaQrScan).2.handlesCreated
      = connectedViaQrScan.handlesCreated + 1
  ∧ (reinitSession true connectedViaQrScan).2.client ≠ connectedViaQrScan.client
  ∧ (reinitSession true (applyTrace [Ev.init true, Ev.qr "qr-url"])).2.cstate
      = some CState.INITIALIZING
  ∧ (reinitSession true (applyTrace [Ev.init true, Ev.qr "qr-url"])).2.handlesCreated
      = 2 :=
  ⟨by decide, by decide, by decide, by decide, by decide, by decide, by decide⟩

/-- Claim C7: for a tenant with an existing session, `stop` changes
nothing but the lifecycle state (in particular the on-disk session
directory keyed by the tenant survives untouched), while `delete` removes
the directory and marks the session DISCONNECTED. -/
theorem stop_preserves_disk_delete_erases (s : TenantState)
    (h : s.client.isSome) :
    stopSession s = (Except.ok (), { s with cstate := some CState.DISCONNECTED })
  ∧ (stopSession s).2.disk = s.disk
  ∧ (deleteSession s).disk = false
  ∧ (deleteSession s).cstate = some CState.DISCONNECTED := by
  obtain ⟨c, hc⟩ := Option.isSome_iff_exists.mp h
  refine ⟨by simp [stopSession, hc], ?_, ?_, ?_⟩ <;>
    simp [stopSession, deleteSession, hc]

/-- A CONNECTED session whose durable login data is on disk. -/
def sessionWithDisk : TenantState :=
  { qr := some none, client := some 0, cstate := some CState.CONNECTED,
    disk := true, nextHandle := 1, handlesCreated := 1 }

/-- Witness for claim C7 at a concrete CONNECTED session with durable
data on disk. -/
theorem stop_preserves_disk_delete_erases_witness :
    stopSession sessionWithDisk
      = (Except.ok (), { sessionWithDisk with cstate := some CState.DISCONNECTED })
  ∧ (stopSession sessionWithDisk).2.disk = sessionWithDisk.disk
  ∧ (deleteSession sessionWithDisk).disk = false
  ∧ (deleteSession sessionWithDisk).cstate = some CState.DISCONNECTED :=
  stop_preserves_disk_delete_erases sessionWithDisk (by decide)

/-- Claim C8: `init` is idempotent while PENDING or CONNECTED — when a
client entry exists and the state is PENDING the call returns the stored
login artifact and the state record is literally unchanged (hence no
second handle); when the state is CONNECTED it returns no artifact and
the record is again unchanged. -/
theorem initSession_idempotent_when_active (s : TenantState)
    (h : s.client.isSome) :
    (s.cstate = some CState.PENDING →
       initSession true s = (Except.ok s.qr.join, s))
  ∧ (s.cstate = some CState.CONNECTED →
       initSession true s = (Except.ok none, s)) := by
  constructor
  · intro hp
    simp [initSession, h, hp]
  · intro hp
    simp [initSession, h, hp]

/-- Witness for claim C8: a PENDING session created by `init` plus a `qr`
event returns its stored artifact unchanged, and the CONNECTED session
returns none, both leaving the record as it was. -/
theorem initSession_idempotent_when_active_witness :
    initSession true (applyTrace [Ev.init true, Ev.qr "qr-url"])
      = (Except.ok ((applyTrace [Ev.init true, Ev.qr "qr-url"]).qr.join),
         applyTrace [Ev.init true, Ev.qr "qr-url"])
  ∧ initSession true connectedViaQrScan = (Except.ok none, connectedViaQrScan) :=
  ⟨(initSession_idempotent_when_active _ (by decide)).1 (by decide),
   (initSession_idempotent_when_active _ (by decide)).2 (by decide)⟩

/-- Claim C10: two `initialize` calls racing on an unseen tenant create
TWO driver handles, not the claimed single one.  The check-then-create
section is synchronous, so the second caller (interleaved at the `await`
boundaries) runs `initialize` on the state the first left behind: it
observes the in-progress INITIALIZING record, but the early-return only
covers PENDING and CONNECTED, so it falls through and constructs a second
handle, overwriting the first caller's map entry. -/
theorem concurrent_init_second_handle :
    (initSession true TenantState.initial).2.cstate = some CState.INITIALIZING
  ∧ (initSession true TenantState.initial).2.client.isSome = true
  ∧ (initSession true (initSession true TenantState.initial).2).2.handlesCreated = 2
  ∧ (initSession true (initSession true TenantState.initial).2).2.client
      ≠ (initSession true TenantState.initial).2.client :=
  ⟨by decide, by decide, by decide, by decide⟩

theorem sendBulkLoop_results (send : String → Except String String) (d : Nat) :
    ∀ (l : List String) (acc : List SendResult) (tr : List BulkAction),
      (sendBulkLoop send d l acc tr).1 = acc ++ l.map (resultFor send)
  | [], acc, tr => by simp [sendBulkLoop]
  | n :: rest, acc, tr => by
    simp [sendBulkLoop, sendBulkLoop_results send d rest]

theorem sendBulkLoop_trace (send : String → Except String String) (d : Nat) :
    ∀ (l : List String) (acc : List SendResult) (tr : List BulkAction),
      (sendBulkLoop send d l acc tr).2 =
        tr ++ (if acc.length > 0 then
                 l.flatMap (fun m => [BulkAction.delay d, BulkAction.attempt m])
               else specSchedule d l)
  | [], acc, tr => by
    cases acc <;> simp [sendBulkLoop, specSchedule]
  | n :: rest, acc, tr => by
    cases acc with
    | nil =>
      simp [sendBulkLoop, sendBulkLoop_trace send d rest, specSchedule]
    | cons a as =>
      simp [sendBulkLoop, sendBulkLoop_trace send d rest, specSchedule]

theorem specSchedule_filter_delay (d : Nat) (l : List String) :
    (specSchedule d l).filter BulkAction.isDelay =
      List.replicate (l.length - 1) (BulkAction.delay d) := by
  cases l with
  | nil => simp [specSchedule]
  | cons n rest =>
    simp only [specSchedule, List.length_cons, Nat.add_sub_cancel]
    induction rest with
    | nil => simp [BulkAction.isDelay]
    | cons m rest ih =>
      simp only [List.flatMap_cons, List.filter_append, List.filter_cons,
        List.filter_nil, List.length_cons, List.replicate_succ] at *
      simp [BulkAction.isDelay] at *
      exact ih

theorem resultFor_number (send : String → Except String String) (n : String) :
    (resultFor send n).number = n := by
  unfold resultFor
  cases send n <;> rfl

theorem successCount_add_failureCount (rs : List SendResult) :
    successCount rs + failureCount rs = rs.length := by
  induction rs with
  | nil => rfl
  | cons r rest ih =>
    unfold successCount failureCount at *
    cases h : r.success <;> simp [List.filter_cons, h] <;> omega

/-- The five recipients of the spec's bulk-dispatch test. -/
def nums5 : List String :=
  ["9611000001@c.us", "9611000002@c.us", "9611000003@c.us",
   "9611000004@c.us", "9611000005@c.us"]

/-- A send operation forced to fail on exactly the third recipient of
`nums5` and returning a distinct message id for every other one. -/
def send5 : String → Except String String := fun n =>
  if n = "9611000003@c.us" then Except.error "number not registered"
  else Except.ok (String.append "mid-" n)

/-- Claim C4: the bulk loops record each recipient's outcome
independently — the result list is exactly the input list mapped through
the per-recipient try/catch (so one failure aborts nothing), it preserves
input order, success plus failure counts add up to the input length, and
on the spec's 5-recipient run with one forced failure the list has length
5 with exactly one `success = false` entry and distinct message ids for
the four successes. -/
theorem bulk_results_independent_per_recipient
    (send : String → Except String String)
    (sendFileOp : String → String → String → Except String String)
    (nums : List String) (imagePath caption : String) (d : Nat) :
    (sendBulkMessages send nums d).1 = nums.map (resultFor send)
  ∧ ((sendBulkMessages send nums d).1.map (fun r => r.number)) = nums
  ∧ successCount (sendBulkMessages send nums d).1
      + failureCount (sendBulkMessages send nums d).1 = nums.length
  ∧ (sendBulkMessagesWithImage sendFileOp nums imagePath caption d).1
      = nums.map (resultFor (fun n => sendFileOp n imagePath caption))
  ∧ (sendBulkMessages send5 nums5 500).1.length = 5
  ∧ failureCount (sendBulkMessages send5 nums5 500).1 = 1
  ∧ successCount (sendBulkMessages send5 nums5 500).1 = 4
  ∧ (((sendBulkMessages send5 nums5 500).1.filter (fun r => r.success)).map
      (fun r => r.messageId)).Nodup := by
  have h1 : (sendBulkMessages send nums d).1 = nums.map (resultFor send) := by
    unfold sendBulkMessages
    simp [sendBulkLoop_results]
  refine ⟨h1, ?_, ?_, ?_, by decide, by decide, by decide, by decide⟩
  · rw [h1, List.map_map]
    have h2 : ((fun r : SendResult => r.number) ∘ resultFor send) = fun n => n := by
      funext n
      simp [Function.comp, resultFor_number]
    rw [h2]
    exact List.map_id nums
  · exact successCount_add_failureCount (sendBulkMessages send nums d).1 |>.trans
      (by rw [h1]; simp)
  · unfold sendBulkMessagesWithImage
    simp [sendBulkLoop_results]

/-- Claim C5: both bulk loops emit exactly the sequential schedule the
spec describes — the sends in input order with the configured delay
between consecutive sends and none before the first, so for N recipients
exactly N-1 delays are awaited. -/
theorem bulk_sequential_delay_schedule
    (send : String → Except String String)
    (sendFileOp : String → String → String → Except String String)
    (nums : List String) (imagePath caption : String) (d : Nat) :
    (sendBulkMessages send nums d).2 = specSchedule d nums
  ∧ (sendBulkMessagesWithImage sendFileOp nums imagePath caption d).2
      = specSchedule d nums
  ∧ ((sendBulkMessages send nums d).2.filter BulkAction.isDelay)
      = List.replicate (nums.length - 1) (BulkAction.delay d)
  ∧ ((sendBulkMessages send nums d).2.filter BulkAction.isDelay).length
      = nums.length - 1 := by
  have h1 : (sendBulkMessages send nums d).2 = specSchedule d nums := by
    unfold sendBulkMessages
    simp [sendBulkLoop_trace]
  refine ⟨h1, ?_, ?_, ?_⟩
  · unfold sendBulkMessagesWithImage
    simp [sendBulkLoop_trace]
  · rw [h1, specSchedule_filter_delay]
  · rw [h1, specSchedule_filter_delay]
    simp

theorem waitCheck_spec (sched : Nat → Bool × Option CState) :
    ∀ (fuel t : Nat),
      ((waitCheck sched t fuel).result = Except.error HttpErr.requestTimeout →
          (waitCheck sched t fuel).tick = t + fuel ∧
          (waitCheck sched t fuel).evicted =
            decide ((sched (waitCheck sched t fuel).tick).2 ≠ some CState.PENDING))
    ∧ ((waitCheck sched t fuel).result = Except.error HttpErr.notFound →
          (sched (waitCheck sched t fuel).tick).1 = false ∧
          (waitCheck sched t fuel).evicted = false ∧
          (waitCheck sched t fuel).tick < t + fuel)
    ∧ ((waitCheck sched t fuel).result = Except.error HttpErr.serviceUnavailable →
          (sched (waitCheck sched t fuel).tick).2 = some CState.DISCONNECTED ∧
          (waitCheck sched t fuel).evicted = true ∧
          (waitCheck sched t fuel).tick < t + fuel)
    ∧ ((waitCheck sched t fuel).result = Except.error HttpErr.badRequest → False)
    ∧ ((waitCheck sched t fuel).result = Except.ok () →
          (sched (waitCheck sched t fuel).tick).2 = some CState.CONNECTED ∧
          (waitCheck sched t fuel).tick < t + fuel) := by
  intro fuel
  induction fuel with
  | zero =>
    intro t
    simp [waitCheck]
  | succ fuel ih =>
    intro t
    by_cases h1 : (sched t).1 = false
    · simp [waitCheck, h1]
    · have h1t : (sched t).1 = true := by
        cases hb : (sched t).1
        · exact absurd hb h1
        · rfl
      by_cases h2 : (sched t).2 = some CState.DISCONNECTED
      · simp [waitCheck, h1t, h2]
      · by_cases h3 : (sched t).2 = some CState.CONNECTED
        · simp [waitCheck, h1t, h2, h3]
        · have hstep : waitCheck sched t (fuel + 1) = waitCheck sched (t + 1) fuel := by
            simp [waitCheck, h1t, h2, h3]
          rw [hstep]
          obtain ⟨i1, i2, i3, i4, i5⟩ := ih (t + 1)
          refine ⟨?_, ?_, ?_, i4, ?_⟩
          · intro h
            obtain ⟨ha, hb⟩ := i1 h
            exact ⟨by omega, hb⟩
          · intro h
            obtain ⟨ha, hb, hc⟩ := i2 h
            exact ⟨ha, hb, by omega⟩
          · intro h
            obtain ⟨ha, hb, hc⟩ := i3 h
            exact ⟨ha, hb, by omega⟩
          · intro h
            obtain ⟨ha, hb⟩ := i5 h
            exact ⟨ha, by omega⟩

/-- Claim C6: the readiness wait fails in exactly the three claimed ways
— a timeout error only once the 300-second budget has elapsed (tick 301),
with the record evicted if and only if the state observed then is not
PENDING; a not-found error only when the client entry is absent at the
failing tick; and an unavailable error only when the state observed at
the failing tick is DISCONNECTED (the latter two strictly inside the
budget). -/
theorem waitForClientReady_failure_modes (sched : Nat → Bool × Option CState) :
    (∀ e, (waitForClientReady sched).result = Except.error e →
        e = HttpErr.requestTimeout ∨ e = HttpErr.notFound
          ∨ e = HttpErr.serviceUnavailable)
  ∧ ((waitForClientReady sched).result = Except.error HttpErr.requestTimeout →
        (waitForClientReady sched).tick = TIMEOUT_SECONDS + 1
      ∧ ((waitForClientReady sched).evicted = true ↔
          (sched (waitForClientReady sched).tick).2 ≠ some CState.PENDING))
  ∧ ((waitForClientReady sched).result = Except.error HttpErr.notFound →
        (sched (waitForClientReady sched).tick).1 = false
      ∧ (waitForClientReady sched).tick ≤ TIMEOUT_SECONDS
      ∧ (waitForClientReady sched).evicted = false)
  ∧ ((waitForClientReady sched).result = Except.error HttpErr.serviceUnavailable →
        (sched (waitForClientReady sched).tick).2 = some CState.DISCONNECTED
      ∧ (waitForClientReady sched).tick ≤ TIMEOUT_SECONDS
      ∧ (waitForClientReady sched).evicted = true) := by
  obtain ⟨i1, i2, i3, i4, i5⟩ := waitCheck_spec sched (TIMEOUT_SECONDS + 1) 0
  unfold waitForClientReady
  refine ⟨?_, ?_, ?_, ?_⟩
  · intro e he
    cases e with
    | badRequest => exact absurd he (fun h => i4 h)
    | notFound => exact Or.inr (Or.inl rfl)
    | requestTimeout => exact Or.inl rfl
    | serviceUnavailable => exact Or.inr (Or.inr rfl)
  · intro h
    obtain ⟨ha, hb⟩ := i1 h
    refine ⟨by omega, ?_⟩
    rw [hb]
    constructor
    · intro hd
      exact of_decide_eq_true hd
    · intro hd
      exact decide_eq_true hd
  · intro h
    obtain ⟨ha, hb, hc⟩ := i2 h
    exact ⟨ha, by unfold TIMEOUT_SECONDS at *; omega, hb⟩
  · intro h
    obtain ⟨ha, hb, hc⟩ := i3 h
    exact ⟨ha, by unfold TIMEOUT_SECONDS at *; omega, hb⟩

set_option maxRecDepth 20000 in
/-- Witness for claim C6: on a session stuck in INITIALIZING for the
whole budget the wait times out at tick 301 and the record is evicted. -/
theorem waitForClientReady_failure_modes_witness :
    (waitForClientReady (fun _ => (true, some CState.INITIALIZING))).result
      = Except.error HttpErr.requestTimeout
  ∧ (waitForClientReady (fun _ => (true, some CState.INITIALIZING))).tick
      = TIMEOUT_SECONDS + 1
  ∧ ((waitForClientReady (fun _ => (true, some CState.INITIALIZING))).evicted = true ↔
      ((fun (_ : Nat) => ((true : Bool), some CState.INITIALIZING))
        (waitForClientReady (fun _ => (true, some CState.INITIALIZING))).tick).2
        ≠ some CState.PENDING) := by
  have hres : (waitForClientReady (fun _ => (true, some CState.INITIALIZING))).result
      = Except.error HttpErr.requestTimeout := by decide
  have h2 := (waitForClientReady_failure_modes
    (fun _ => (true, some CState.INITIALIZING))).2.1 hres
  exact ⟨hres, h2.1, h2.2⟩

/-- Claim C9: the staged attachment is deleted once the send attempt
completes, on the success path and on the error path alike (the
`fs.unlink` call appears exactly once in the emitted filesystem trace
either way), the send's result or error is returned unchanged, and a
failure of the deletion itself only changes the logged callback, never
the returned outcome (and `deleteFileAsync` has no error channel at
all). -/
theorem sendTemporaryFile_delete_always (sendF : Except String String)
    (unlinkOk : Bool) (path : String) :
    (sendTemporaryFile sendF unlinkOk path).1 = sendF
  ∧ (sendTemporaryFile sendF unlinkOk path).2 = deleteFileAsync unlinkOk path
  ∧ ((sendTemporaryFile sendF unlinkOk path).2.countP FsEv.isUnlinkCall) = 1
  ∧ (sendTemporaryFile sendF true path).1 = (sendTemporaryFile sendF false path).1 := by
  cases sendF <;>
    cases unlinkOk <;>
      exact ⟨rfl, rfl, rfl, rfl⟩

end WhatsappSim
